import Mathlib

/-!
# Verification of the Lumora data-model and tailoring logic

Shallow embedding of the persistence, survey-scoring, class-management and
lesson-tailoring logic of `app.py` (the Lumora demo application), together
with proofs of the behavioural properties claimed by its specification.

Modelling conventions:
* SQLite tables are lists of record structures, appended in insertion order;
  `INTEGER PRIMARY KEY` auto-increment is reflected by strictly increasing
  `id` fields along the list.
* Python strings are Lean `String`s; `str.strip()` is `pystrip`,
  the slice `s[:n]` is `pytake`, and `s.replace "\n" " "` (a one-character
  pattern) is `flattenNewlines`, a character-wise map.
* The OpenAI credential (`openai.api_key`) is a parameter
  `apiKey : Option String`; Python truthiness of the key is `hasApiKey`.
  The outcome of the one external network call is an explicit oracle
  parameter `apiResult : Except String String` (`Except.error` stands for
  any exception raised during the call or while decoding its response).
* SHA-256 (`hashlib.sha256(...).hexdigest()`) is an abstract parameter
  `h : String → String`; no claim depends on more than equality of hashes.
-/

namespace Lumora

/-! ## Generic Python-string helpers -/

/-- Model of Python `str.strip()`: drop whitespace from both ends. -/
def pystrip (s : String) : String :=
  ⟨((s.data.dropWhile Char.isWhitespace).reverse.dropWhile Char.isWhitespace).reverse⟩

/-- Model of the Python slice `s[:n]`: the first `n` characters (Python
strings are sequences of code points). -/
def pytake (s : String) (n : Nat) : String :=
  ⟨s.data.take n⟩

/-- Model of `text.replace("\n", " ")`: a single-character pattern, hence a
character-wise map. -/
def flattenNewlines (s : String) : String :=
  ⟨s.data.map (fun c => if c = '\n' then ' ' else c)⟩

/-! ## Data model (the SQLite tables of `init_db`) -/

/-- A row of the `users` table. -/
structure UserRow where
  id : Nat
  name : String
  role : String
  password : String
deriving Repr, DecidableEq

/-- A row of the `survey_results` table (the `mi_scores` JSON column and
`created_at` are not needed by any claim). -/
structure SurveyRow where
  id : Nat
  user_id : Nat
  dominant_mi : String
deriving Repr, DecidableEq

/-- A row of the `classes` table (`created_at` omitted). -/
structure ClassRow where
  id : Nat
  teacher_id : Nat
  name : String
  code : String
deriving Repr, DecidableEq

/-- A row of the `class_members` table (`id` and `joined_at` omitted). -/
structure MemberRow where
  class_id : Nat
  student_id : Nat
deriving Repr, DecidableEq

/-- A row of the `class_lessons` table (`id` and `created_at` omitted). -/
structure ClassLessonRow where
  class_id : Nat
  student_id : Nat
  topic : String
  subject : String
  mi_type : String
  content : String
deriving Repr, DecidableEq

/-! ## Survey scorer (`student_pages`, "MI Survey" branch)

`mi_scores = {mi: sum(vals) for mi, vals in responses.items()}` and
`dominant = max(mi_scores, key=mi_scores.get)`.  A Python dict iterates in
insertion order and `max` keeps the first element whose key-value is not
strictly exceeded later, so ties go to the first-inserted category. -/

/-- The seven fixed intelligence categories, in the insertion order of the
`questions` dict of `student_pages`. -/
def surveyCategories : List String :=
  ["Linguistic", "Logical-Mathematical", "Visual-Spatial",
   "Bodily-Kinesthetic", "Musical", "Interpersonal", "Intrapersonal"]

/-- `{mi: sum(vals) for mi, vals in responses.items()}`. -/
def miScores (responses : List (String × List Nat)) : List (String × Nat) :=
  responses.map (fun p => (p.1, p.2.sum))

/-- The scanning loop of Python `max(..., key=...)`: the current best is
replaced only when a later value is strictly greater. -/
def pyMaxGo (best : String × Nat) : List (String × Nat) → String × Nat
  | [] => best
  | p :: rest => if best.2 < p.2 then pyMaxGo p rest else pyMaxGo best rest

/-- Python `max(d, key=d.get)` over an association list in iteration order
(`none` on the empty dict, where Python raises `ValueError`). -/
def pyMaxByValue : List (String × Nat) → Option (String × Nat)
  | [] => none
  | p :: rest => some (pyMaxGo p rest)

/-- `dominant = max(mi_scores, key=mi_scores.get)`. -/
def surveyDominant (responses : List (String × List Nat)) : Option String :=
  (pyMaxByValue (miScores responses)).map Prod.fst

/-- `save_survey` as invoked by the Submit-Survey handler: appends one
`survey_results` row carrying the computed dominant category. -/
def submitSurvey (db : List SurveyRow) (nextId uid : Nat)
    (responses : List (String × List Nat)) : List SurveyRow :=
  match surveyDominant responses with
  | some d => db ++ [⟨nextId, uid, d⟩]
  | none => db

/-! Key lemma: `pyMaxGo` returns an element of the scanned list whose value
is maximal, and every element strictly before it in the list has a strictly
smaller value (first-wins tie-break). -/

theorem pyMaxGo_spec (l : List (String × Nat)) :
    ∀ best : String × Nat,
      ∃ l1 l2, best :: l = l1 ++ pyMaxGo best l :: l2 ∧
        (∀ p ∈ l1, p.2 < (pyMaxGo best l).2) ∧
        (∀ p ∈ best :: l, p.2 ≤ (pyMaxGo best l).2) := by
  induction l with
  | nil =>
      intro best
      exact ⟨[], [], rfl, by simp, by simp [pyMaxGo]⟩
  | cons p rest ih =>
      intro best
      by_cases hlt : best.2 < p.2
      · have hgo : pyMaxGo best (p :: rest) = pyMaxGo p rest := by
          simp [pyMaxGo, hlt]
        obtain ⟨l1, l2, hsplit, hbefore, hall⟩ := ih p
        have hple : p.2 ≤ (pyMaxGo p rest).2 := hall p (List.mem_cons_self _ _)
        refine ⟨best :: l1, l2, ?_, ?_, ?_⟩
        · rw [hgo, List.cons_append, ← hsplit]
        · intro q hq
          rw [hgo]
          rcases List.mem_cons.mp hq with hqb | hql1
          · rw [hqb]; exact lt_of_lt_of_le hlt hple
          · exact hbefore q hql1
        · intro q hq
          rw [hgo]
          rcases List.mem_cons.mp hq with hqb | hqrest
          · rw [hqb]; exact le_of_lt (lt_of_lt_of_le hlt hple)
          · exact hall q hqrest
      · have hgo : pyMaxGo best (p :: rest) = pyMaxGo best rest := by
          simp [pyMaxGo, hlt]
        obtain ⟨l1, l2, hsplit, hbefore, hall⟩ := ih best
        cases l1 with
        | nil =>
            simp only [List.nil_append] at hsplit
            injection hsplit with h1 h2
            have hres : pyMaxGo best rest = best := h1.symm
            refine ⟨[], p :: rest, ?_, by simp, ?_⟩
            · rw [hgo, hres, List.nil_append]
            · intro q hq
              rw [hgo, hres]
              rcases List.mem_cons.mp hq with hqb | hq'
              · rw [hqb]
              · rcases List.mem_cons.mp hq' with hqp | hqrest
                · rw [hqp]; exact le_of_not_lt hlt
                · have h3 := hall q (List.mem_cons_of_mem _ hqrest)
                  rwa [hres] at h3
        | cons q0 t =>
            injection hsplit with h1 h2
            rw [List.append_eq] at h2
            have hbestlt : best.2 < (pyMaxGo best rest).2 := by
              have h3 := hbefore q0 (List.mem_cons_self _ _)
              rwa [← h1] at h3
            refine ⟨best :: p :: t, l2, ?_, ?_, ?_⟩
            · rw [hgo, List.cons_append, List.cons_append, ← h2]
            · intro q hq
              rw [hgo]
              rcases List.mem_cons.mp hq with hqb | hq'
              · rw [hqb]; exact hbestlt
              · rcases List.mem_cons.mp hq' with hqp | hqt
                · rw [hqp]; exact lt_of_le_of_lt (le_of_not_lt hlt) hbestlt
                · exact hbefore q (List.mem_cons_of_mem _ hqt)
            · intro q hq
              rw [hgo]
              rcases List.mem_cons.mp hq with hqb | hq'
              · rw [hqb]; exact hall best (List.mem_cons_self _ _)
              · rcases List.mem_cons.mp hq' with hqp | hqrest
                · rw [hqp]
                  exact le_trans (le_of_not_lt hlt) (hall best (List.mem_cons_self _ _))
                · exact hall q (List.mem_cons_of_mem _ hqrest)

/-- C1: for every valid survey submission (the 7 fixed categories, five
ratings each in 1..5), the per-category score is the sum of that category's
five ratings, and the dominant category returned and persisted is the
category with the maximum sum, ties broken in favour of the category that
appears first in the mapping's insertion order. -/
theorem survey_dominant_correct (responses : List (String × List Nat))
    (hcats : responses.map Prod.fst = surveyCategories)
    (hlen : ∀ p ∈ responses, p.2.length = 5)
    (hrange : ∀ p ∈ responses, ∀ r ∈ p.2, 1 ≤ r ∧ r ≤ 5) :
    (∀ p ∈ responses, (p.1, p.2.sum) ∈ miScores responses) ∧
    ∃ d m l1 l2, surveyDominant responses = some d ∧
      miScores responses = l1 ++ (d, m) :: l2 ∧
      (∀ p ∈ miScores responses, p.2 ≤ m) ∧
      (∀ p ∈ l1, p.2 < m) ∧
      (∀ db nextId uid, submitSurvey db nextId uid responses = db ++ [⟨nextId, uid, d⟩]) := by
  constructor
  · intro p hp
    exact List.mem_map_of_mem _ hp
  · cases responses with
    | nil => simp [surveyCategories] at hcats
    | cons r rs =>
        obtain ⟨l1, l2, hsplit, hbefore, hall⟩ :=
          pyMaxGo_spec (rs.map (fun p : String × List Nat => (p.1, p.2.sum))) (r.1, r.2.sum)
        refine ⟨(pyMaxGo (r.1, r.2.sum) (rs.map (fun p : String × List Nat => (p.1, p.2.sum)))).1,
                (pyMaxGo (r.1, r.2.sum) (rs.map (fun p : String × List Nat => (p.1, p.2.sum)))).2,
                l1, l2, ?_, ?_, ?_, ?_, ?_⟩
        · rfl
        · exact hsplit
        · exact hall
        · exact hbefore
        · intro db nextId uid
          rfl

/-- Witness for `survey_dominant_correct`: the all-3s submission over the
seven fixed categories; its dominant category is the first one. -/
theorem survey_dominant_correct_witness :
    ((surveyCategories.map (fun c => (c, [3, 3, 3, 3, 3]))).map Prod.fst = surveyCategories) ∧
    ((∀ p ∈ surveyCategories.map (fun c => (c, [3, 3, 3, 3, 3])),
        (p.1, p.2.sum) ∈ miScores (surveyCategories.map (fun c => (c, [3, 3, 3, 3, 3])))) ∧
     ∃ d m l1 l2,
       surveyDominant (surveyCategories.map (fun c => (c, [3, 3, 3, 3, 3]))) = some d ∧
       miScores (surveyCategories.map (fun c => (c, [3, 3, 3, 3, 3]))) = l1 ++ (d, m) :: l2 ∧
       (∀ p ∈ miScores (surveyCategories.map (fun c => (c, [3, 3, 3, 3, 3]))), p.2 ≤ m) ∧
       (∀ p ∈ l1, p.2 < m) ∧
       (∀ db nextId uid,
         submitSurvey db nextId uid (surveyCategories.map (fun c => (c, [3, 3, 3, 3, 3]))) =
           db ++ [⟨nextId, uid, d⟩])) :=
  ⟨by decide, survey_dominant_correct _ (by decide) (by decide) (by decide)⟩

/-! ## Signup and login (`NAME_PATTERN`, `create_user`, `validate_user`,
`user_exists` and the signup/login branches of `landing_ui`) -/

/-- The character class `[A-Z]` of `NAME_PATTERN`. -/
def isUpperAZ (c : Char) : Bool := 'A' ≤ c && c ≤ 'Z'

/-- The character class `[a-zA-Z]` of `NAME_PATTERN`. -/
def isLetterAZ (c : Char) : Bool := ('A' ≤ c && c ≤ 'Z') || ('a' ≤ c && c ≤ 'z')

/-- The tail `[A-Z][a-zA-Z]+$` of `NAME_PATTERN` (last name, anchored at the
end of the string). -/
def matchCapWordEnd : List Char → Bool
  | c :: rest => isUpperAZ c && !rest.isEmpty && rest.all isLetterAZ
  | [] => false

/-- The tail `[A-Z]\. [A-Z][a-zA-Z]+$` of `NAME_PATTERN` (middle initial,
period, space, last name). -/
def matchInitialAndLast : List Char → Bool
  | m :: '.' :: ' ' :: rest => isUpperAZ m && matchCapWordEnd rest
  | _ => false

/-- `re.match(NAME_PATTERN, s)` for
`NAME_PATTERN = r"^[A-Z][a-zA-Z]+ [A-Z]\. [A-Z][a-zA-Z]+$"`.
Each `[a-zA-Z]+` group is followed in the pattern by a character outside the
class, so the greedy `takeWhile` scan is exact; `$` is a true end anchor
because `landing_ui` strips the name before matching, so it cannot end in a
newline. -/
def NAME_PATTERN_match (s : String) : Bool :=
  match s.data with
  | c1 :: rest =>
      isUpperAZ c1 && !(rest.takeWhile isLetterAZ).isEmpty &&
      (match rest.dropWhile isLetterAZ with
       | ' ' :: rest2 => matchInitialAndLast rest2
       | _ => false)
  | [] => false

/-- `user_exists`. -/
def user_exists (users : List UserRow) (name : String) : Bool :=
  users.any (fun u => u.name == name)

/-- `create_user` (the INSERT into `users`): the schema's `UNIQUE`
constraint on `name` makes the insert fail when the name is already taken;
`h` abstracts `hash_pw` (the SHA-256 hex digest). The fresh id models
SQLite's auto-increment row id. -/
def create_user (h : String → String) (users : List UserRow)
    (name role pw : String) : Option (Nat × List UserRow) :=
  if users.any (fun u => u.name == name) then none
  else some (users.length + 1, users ++ [⟨users.length + 1, name, role, h pw⟩])

/-- `validate_user`: fetch the row by name and compare its stored hash with
the hash of the supplied password; `(none, none)` models `(None, None)`. -/
def validate_user (h : String → String) (users : List UserRow)
    (name pw : String) : Option Nat × Option String :=
  match users.find? (fun u => u.name == name) with
  | some u => if u.password == h pw then (some u.id, some u.role) else (none, none)
  | none => (none, none)

/-- Outcome of one signup attempt in `landing_ui`. -/
inductive SignupOutcome where
  | missingFields
  | badNameFormat
  | passwordMismatch
  | duplicateUser
  | created (uid : Nat)
deriving Repr, DecidableEq

/-- The signup branch of `landing_ui`: `not name or not pw` →
`not re.match(NAME_PATTERN, name.strip())` → `pw != pw2` →
`user_exists(name.strip())` → `create_user(name.strip(), role, pw)`. -/
def signup (h : String → String) (users : List UserRow)
    (name role pw pw2 : String) : SignupOutcome × List UserRow :=
  if name = "" ∨ pw = "" then (.missingFields, users)
  else if ¬ NAME_PATTERN_match (pystrip name) then (.badNameFormat, users)
  else if pw ≠ pw2 then (.passwordMismatch, users)
  else if user_exists users (pystrip name) then (.duplicateUser, users)
  else
    match create_user h users (pystrip name) role pw with
    | some (uid, users') => (.created uid, users')
    | none => (.duplicateUser, users)

/-- C2 as frozen is false on the code: with the well-formed, unregistered
name `"Juan D. Cruz"` and an empty password equal to its (empty)
confirmation, every condition of the claim holds, yet `landing_ui` aborts
at `not pw` and creates no user row. -/
theorem signup_claim_counterexample :
    NAME_PATTERN_match (pystrip "Juan D. Cruz") = true ∧
    "Juan D. Cruz" ≠ "" ∧
    ("" : String) = ("" : String) ∧
    user_exists [] (pystrip "Juan D. Cruz") = false ∧
    signup (fun s => s) [] "Juan D. Cruz" "student" "" "" = (.missingFields, []) := by
  decide

/-- C2 (amended): signup succeeds — appending exactly one user row — iff
the name is non-empty, the password is non-empty, the stripped name matches
`NAME_PATTERN`, the confirmation matches the password, and the stripped
name is not yet registered; on any failing condition the user table is
unchanged. -/
theorem signup_success_iff (h : String → String) (users : List UserRow)
    (name role pw pw2 : String) :
    ((∃ uid, (signup h users name role pw pw2).1 = .created uid) ↔
      (name ≠ "" ∧ pw ≠ "" ∧ NAME_PATTERN_match (pystrip name) = true ∧
       pw = pw2 ∧ user_exists users (pystrip name) = false)) ∧
    (∀ uid, (signup h users name role pw pw2).1 = .created uid →
      (signup h users name role pw pw2).2 =
        users ++ [⟨users.length + 1, pystrip name, role, h pw⟩]) ∧
    ((∀ uid, (signup h users name role pw pw2).1 ≠ .created uid) →
      (signup h users name role pw pw2).2 = users) := by
  by_cases hc1 : name = "" ∨ pw = ""
  · have hs : signup h users name role pw pw2 = (.missingFields, users) := by
      simp only [signup, if_pos hc1]
    refine ⟨⟨fun ⟨uid, hu⟩ => ?_, fun ⟨hn, hp, _⟩ => ?_⟩, fun uid hu => ?_, fun _ => ?_⟩
    · rw [hs] at hu; cases hu
    · rcases hc1 with hh | hh
      · exact absurd hh hn
      · exact absurd hh hp
    · rw [hs] at hu; cases hu
    · rw [hs]
  · by_cases hc2 : NAME_PATTERN_match (pystrip name) = true
    · by_cases hc3 : pw = pw2
      · by_cases hc4 : user_exists users (pystrip name) = true
        · have hs : signup h users name role pw pw2 = (.duplicateUser, users) := by
            simp only [signup]
            rw [if_neg hc1, if_neg (not_not_intro hc2), if_neg (not_not_intro hc3),
               if_pos hc4]
          refine ⟨⟨fun ⟨uid, hu⟩ => ?_, fun ⟨_, _, _, _, hne⟩ => ?_⟩,
                  fun uid hu => ?_, fun _ => ?_⟩
          · rw [hs] at hu; cases hu
          · rw [hc4] at hne; cases hne
          · rw [hs] at hu; cases hu
          · rw [hs]
        · have hany : users.any (fun u => u.name == pystrip name) = false := by
            have := eq_false_of_ne_true hc4
            simpa [user_exists] using this
          have hcreate : create_user h users (pystrip name) role pw =
              some (users.length + 1,
                    users ++ [⟨users.length + 1, pystrip name, role, h pw⟩]) := by
            simp only [create_user]
            rw [if_neg (by simp [hany])]
          have hs : signup h users name role pw pw2 =
              (.created (users.length + 1),
               users ++ [⟨users.length + 1, pystrip name, role, h pw⟩]) := by
            simp only [signup]
            rw [if_neg hc1, if_neg (not_not_intro hc2), if_neg (not_not_intro hc3),
               if_neg hc4, hcreate]
          refine ⟨⟨fun _ => ?_, fun _ => ?_⟩, fun uid hu => ?_, fun hno => ?_⟩
          · push_neg at hc1
            exact ⟨hc1.1, hc1.2, hc2, hc3, eq_false_of_ne_true hc4⟩
          · exact ⟨users.length + 1, by rw [hs]⟩
          · rw [hs]
          · exact absurd (by rw [hs] : (signup h users name role pw pw2).1 =
              .created (users.length + 1)) (hno (users.length + 1))
      · have hs : signup h users name role pw pw2 = (.passwordMismatch, users) := by
          simp only [signup]
          rw [if_neg hc1, if_neg (not_not_intro hc2), if_pos hc3]
        refine ⟨⟨fun ⟨uid, hu⟩ => ?_, fun ⟨_, _, _, heq, _⟩ => ?_⟩,
                fun uid hu => ?_, fun _ => ?_⟩
        · rw [hs] at hu; cases hu
        · exact absurd heq hc3
        · rw [hs] at hu; cases hu
        · rw [hs]
    · have hs : signup h users name role pw pw2 = (.badNameFormat, users) := by
        simp only [signup]
        rw [if_neg hc1, if_pos hc2]
      refine ⟨⟨fun ⟨uid, hu⟩ => ?_, fun ⟨_, _, hm, _⟩ => ?_⟩,
              fun uid hu => ?_, fun _ => ?_⟩
      · rw [hs] at hu; cases hu
      · exact absurd hm hc2
      · rw [hs] at hu; cases hu
      · rw [hs]

/-- Witness for `signup_success_iff`: a fresh valid signup on an empty user
table creates row 1. -/
theorem signup_success_iff_witness :
    ((∃ uid, (signup (fun s => s) [] "Juan D. Cruz" "student" "pw" "pw").1 =
        .created uid) ↔
      ("Juan D. Cruz" ≠ "" ∧ "pw" ≠ "" ∧
       NAME_PATTERN_match (pystrip "Juan D. Cruz") = true ∧
       "pw" = "pw" ∧ user_exists [] (pystrip "Juan D. Cruz") = false)) ∧
    (∀ uid, (signup (fun s => s) [] "Juan D. Cruz" "student" "pw" "pw").1 = .created uid →
      (signup (fun s => s) [] "Juan D. Cruz" "student" "pw" "pw").2 =
        ([] : List UserRow) ++
          [⟨([] : List UserRow).length + 1, pystrip "Juan D. Cruz", "student", "pw"⟩]) ∧
    ((∀ uid, (signup (fun s => s) [] "Juan D. Cruz" "student" "pw" "pw").1 ≠ .created uid) →
      (signup (fun s => s) [] "Juan D. Cruz" "student" "pw" "pw").2 = ([] : List UserRow)) :=
  signup_success_iff (fun s => s) [] "Juan D. Cruz" "student" "pw" "pw"

/-- C9: login round-trips with signup: after `create_user` succeeds,
`validate_user` with the same name and password returns that user's id and
role; a password hashing differently from the stored hash, or an
unregistered name, yields `(None, None)` and login is rejected. -/
theorem validate_user_roundtrip (h : String → String) (users : List UserRow)
    (name role pw : String) (uid : Nat) (users' : List UserRow)
    (hc : create_user h users name role pw = some (uid, users')) :
    validate_user h users' name pw = (some uid, some role) ∧
    (∀ pw', h pw' ≠ h pw → validate_user h users' name pw' = (none, none)) ∧
    (∀ name' pw', (∀ u ∈ users', u.name ≠ name') →
      validate_user h users' name' pw' = (none, none)) := by
  by_cases hany : users.any (fun u => u.name == name) = true
  · rw [create_user, if_pos hany] at hc; cases hc
  · rw [create_user, if_neg hany] at hc
    simp only [Option.some.injEq, Prod.mk.injEq] at hc
    obtain ⟨huid, husers⟩ := hc
    subst huid
    subst husers
    have hnone : users.find? (fun u => u.name == name) = none := by
      rw [List.find?_eq_none]
      intro u hu hp
      exact hany (List.any_eq_true.mpr ⟨u, hu, hp⟩)
    have hfind : (users ++ [(⟨users.length + 1, name, role, h pw⟩ : UserRow)]).find?
        (fun u => u.name == name) = some ⟨users.length + 1, name, role, h pw⟩ := by
      simp [List.find?_append, hnone]
    refine ⟨?_, ?_, ?_⟩
    · simp [validate_user, hfind]
    · intro pw' hne
      simp [validate_user, hfind, (Ne.symm hne : h pw ≠ h pw')]
    · intro name' pw' hall
      have hfn : (users ++ [(⟨users.length + 1, name, role, h pw⟩ : UserRow)]).find?
          (fun u => u.name == name') = none := by
        rw [List.find?_eq_none]
        intro u hu hp
        exact hall u hu (by simpa using hp)
      simp [validate_user, hfn]

/-- Witness for `validate_user_roundtrip`: a single created user logs in
with the right password and is rejected otherwise. -/
theorem validate_user_roundtrip_witness :
    create_user (fun s => s) [] "Juan D. Cruz" "student" "pw" =
      some (1, [⟨1, "Juan D. Cruz", "student", "pw"⟩]) ∧
    (validate_user (fun s => s) [⟨1, "Juan D. Cruz", "student", "pw"⟩] "Juan D. Cruz" "pw" =
        (some 1, some "student") ∧
     (∀ pw', (fun s : String => s) pw' ≠ (fun s : String => s) "pw" →
        validate_user (fun s => s) [⟨1, "Juan D. Cruz", "student", "pw"⟩] "Juan D. Cruz" pw' =
          (none, none)) ∧
     (∀ name' pw', (∀ u ∈ [(⟨1, "Juan D. Cruz", "student", "pw"⟩ : UserRow)], u.name ≠ name') →
        validate_user (fun s => s) [⟨1, "Juan D. Cruz", "student", "pw"⟩] name' pw' =
          (none, none))) :=
  ⟨by decide, validate_user_roundtrip (fun s => s) [] "Juan D. Cruz" "student" "pw" 1
      [⟨1, "Juan D. Cruz", "student", "pw"⟩] (by decide)⟩

/-! ## Class creation and join codes (`create_class`, `init_db`)

`create_class` draws `code = ''.join(random.choices(string.ascii_uppercase +
string.digits, k=6))`; randomness is an oracle `picks : Fin 6 → Fin 36`
selecting one alphabet index per position.  The `classes` table declares
`code TEXT UNIQUE`, so an INSERT that collides with a stored code fails
(the creation is not successful). -/

/-- `string.ascii_uppercase + string.digits`. -/
def codeAlphabet : List Char :=
  ['A', 'B', 'C', 'D', 'E', 'F', 'G', 'H', 'I', 'J', 'K', 'L', 'M',
   'N', 'O', 'P', 'Q', 'R', 'S', 'T', 'U', 'V', 'W', 'X', 'Y', 'Z',
   '0', '1', '2', '3', '4', '5', '6', '7', '8', '9']

theorem codeAlphabet_length : codeAlphabet.length = 36 := rfl

/-- `''.join(random.choices(codeAlphabet, k=6))`. -/
def genCode (picks : Fin 6 → Fin 36) : String :=
  ⟨(List.finRange 6).map (fun i => codeAlphabet.get (Fin.cast codeAlphabet_length.symm (picks i)))⟩

/-- `create_class` acting on the stored list of join codes: the generated
code is inserted, subject to the schema's `UNIQUE` constraint. -/
def create_class (codes : List String) (picks : Fin 6 → Fin 36) : Option (String × List String) :=
  let code := genCode picks
  if code ∈ codes then none else some (code, codes ++ [code])

/-- A sequence of `create_class` calls that all succeed. -/
def create_classes (codes : List String) : List (Fin 6 → Fin 36) → Option (List String)
  | [] => some codes
  | p :: rest =>
      match create_class codes p with
      | none => none
      | some (_, codes') => create_classes codes' rest

/-- C3: every join code produced by class creation is exactly 6 characters
drawn from `A-Z0-9`, and after any sequence of successful class creations
starting from a duplicate-free store, all stored join codes are pairwise
distinct. -/
theorem class_codes_spec (picks : Fin 6 → Fin 36) (ps : List (Fin 6 → Fin 36))
    (codes codes' : List String) (hnd : codes.Nodup)
    (hrun : create_classes codes ps = some codes') :
    ((genCode picks).length = 6 ∧ ∀ c ∈ (genCode picks).data, c ∈ codeAlphabet) ∧
    codes'.Nodup := by
  constructor
  · constructor
    · simp [genCode, String.length]
    · intro c hc
      simp only [genCode, List.mem_map] at hc
      obtain ⟨i, _, hi⟩ := hc
      rw [← hi]
      exact List.get_mem _ _ _
  · clear picks
    induction ps generalizing codes with
    | nil =>
        rw [create_classes] at hrun
        injection hrun with hrun
        rwa [← hrun]
    | cons p rest ih =>
        rw [create_classes] at hrun
        by_cases hmem : genCode p ∈ codes
        · rw [create_class, if_pos hmem] at hrun
          cases hrun
        · rw [create_class, if_neg hmem] at hrun
          exact ih (codes ++ [genCode p])
            (by simp [List.nodup_append, hnd, hmem]) hrun

/-- Witness for `class_codes_spec`: two successful creations from an empty
store. -/
theorem class_codes_spec_witness :
    ([] : List String).Nodup ∧
    create_classes [] [fun _ => (0 : Fin 36), fun _ => (1 : Fin 36)] =
      some ["AAAAAA", "BBBBBB"] ∧
    (((genCode (fun _ => (0 : Fin 36))).length = 6 ∧
      ∀ c ∈ (genCode (fun _ => (0 : Fin 36))).data, c ∈ codeAlphabet) ∧
     (["AAAAAA", "BBBBBB"] : List String).Nodup) :=
  ⟨by decide, by decide,
   class_codes_spec (fun _ => (0 : Fin 36)) [fun _ => (0 : Fin 36), fun _ => (1 : Fin 36)]
     [] ["AAAAAA", "BBBBBB"] (by decide) (by decide)⟩

/-! ## Joining classes (`join_class_by_code`, `class_members`) -/

/-- `join_class_by_code`: resolve the code to a class, check membership
(`SELECT id FROM class_members WHERE class_id=? AND student_id=?`), insert
only when absent.  Returns the new `class_members` table together with the
`(ok, message)` pair of the Python function. -/
def join_class_by_code (classes : List ClassRow) (members : List MemberRow)
    (student_id : Nat) (code : String) : List MemberRow × Bool × String :=
  match classes.find? (fun c => c.code == code) with
  | none => (members, false, "Invalid class code.")
  | some cls =>
      match members.find? (fun m => m.class_id == cls.id && m.student_id == student_id) with
      | some _ => (members, true, "Already a member.")
      | none => (members ++ [⟨cls.id, student_id⟩], true, "Joined successfully.")

/-- Number of membership rows for one `(class, student)` pair. -/
def memberCount (members : List MemberRow) (cid sid : Nat) : Nat :=
  members.countP (fun m => m.class_id == cid && m.student_id == sid)

/-- C4: joining is idempotent in effect.  For a valid class code: when the
student is already a member (count 1), a second join leaves the table
unchanged — count stays 1, no row inserted — and reports success with the
"Already a member." message; when the student is not yet a member (count
0), the join inserts exactly one membership row and reports success. -/
theorem join_class_idempotent (classes : List ClassRow) (members : List MemberRow)
    (student_id : Nat) (code : String) (cls : ClassRow)
    (hfind : classes.find? (fun c => c.code == code) = some cls) :
    (memberCount members cls.id student_id = 1 →
      join_class_by_code classes members student_id code =
        (members, true, "Already a member.")) ∧
    (memberCount members cls.id student_id = 0 →
      join_class_by_code classes members student_id code =
        (members ++ [⟨cls.id, student_id⟩], true, "Joined successfully.") ∧
      memberCount (members ++ [⟨cls.id, student_id⟩]) cls.id student_id = 1) := by
  constructor
  · intro hone
    have hpos : 0 < members.countP
        (fun m => m.class_id == cls.id && m.student_id == student_id) := by
      rw [memberCount] at hone
      omega
    obtain ⟨m, hm, hpm⟩ := List.countP_pos_iff.mp hpos
    have hsome : (members.find?
        (fun m => m.class_id == cls.id && m.student_id == student_id)).isSome :=
      List.find?_isSome.mpr ⟨m, hm, hpm⟩
    obtain ⟨m', hm'⟩ := Option.isSome_iff_exists.mp hsome
    simp only [join_class_by_code, hfind, hm']
  · intro hzero
    have hnone : members.find?
        (fun m => m.class_id == cls.id && m.student_id == student_id) = none := by
      rw [List.find?_eq_none]
      intro m hm hpm
      rw [memberCount, List.countP_eq_zero] at hzero
      exact hzero m hm hpm
    refine ⟨by simp only [join_class_by_code, hfind, hnone], ?_⟩
    rw [memberCount, List.countP_append, ← memberCount, hzero]
    simp

/-- Witness for `join_class_idempotent`: one class, one student, first and
second join. -/
theorem join_class_idempotent_witness :
    ([(⟨1, 9, "Algebra I", "ABC123"⟩ : ClassRow)].find?
        (fun c => c.code == "ABC123") = some ⟨1, 9, "Algebra I", "ABC123"⟩) ∧
    ((memberCount [] 1 7 = 1 →
       join_class_by_code [⟨1, 9, "Algebra I", "ABC123"⟩] [] 7 "ABC123" =
         ([], true, "Already a member.")) ∧
     (memberCount [] 1 7 = 0 →
       join_class_by_code [⟨1, 9, "Algebra I", "ABC123"⟩] [] 7 "ABC123" =
         ([] ++ [⟨1, 7⟩], true, "Joined successfully.") ∧
       memberCount ([] ++ [⟨1, 7⟩]) 1 7 = 1)) :=
  ⟨by decide, join_class_idempotent [⟨1, 9, "Algebra I", "ABC123"⟩] [] 7 "ABC123"
      ⟨1, 9, "Algebra I", "ABC123"⟩ (by decide)⟩

/-! ## Latest survey lookup (`get_latest_dominant_mi`) -/

/-- The scanning step realising `ORDER BY id DESC LIMIT 1`: keep the row
with the greater (primary-key) `id`. -/
def maxIdStep (a r : SurveyRow) : SurveyRow := if a.id < r.id then r else a

/-- The row selected by
`SELECT dominant_mi FROM survey_results WHERE user_id=? ORDER BY id DESC LIMIT 1`:
among the user's rows, the one with the maximal `id`. -/
def latestSurveyRow (rows : List SurveyRow) (uid : Nat) : Option SurveyRow :=
  match rows.filter (fun r => r.user_id == uid) with
  | [] => none
  | r :: rest => some (rest.foldl maxIdStep r)

/-- `get_latest_dominant_mi`. -/
def get_latest_dominant_mi (rows : List SurveyRow) (uid : Nat) : Option String :=
  (latestSurveyRow rows uid).map SurveyRow.dominant_mi

/-- `get_latest_dominant_mi(uid) or "General"` as used by the lesson
generator and the assignment loop (Python `or`: both `None` and the empty
string fall back to `"General"`). -/
def dominantOrGeneral (rows : List SurveyRow) (uid : Nat) : String :=
  match get_latest_dominant_mi rows uid with
  | none => "General"
  | some d => if d = "" then "General" else d

theorem foldl_maxIdStep_increasing :
    ∀ (rest : List SurveyRow) (r : SurveyRow),
      List.Pairwise (fun a b => a.id < b.id) (r :: rest) →
      rest.foldl maxIdStep r = (rest.getLast?).getD r := by
  intro rest
  induction rest with
  | nil => intro r _; rfl
  | cons r' rest' ih =>
      intro r hpw
      have hlt : r.id < r'.id :=
        (List.pairwise_cons.mp hpw).1 r' (List.mem_cons_self _ _)
      have hpw' : List.Pairwise (fun a b => a.id < b.id) (r' :: rest') :=
        (List.pairwise_cons.mp hpw).2
      have hstep : maxIdStep r r' = r' := by
        rw [maxIdStep, if_pos hlt]
      rw [List.foldl_cons, hstep, ih r' hpw']
      cases rest' with
      | nil => rfl
      | cons x xs =>
          rw [List.getLast?_cons_cons]
          cases hxs : (x :: xs).getLast? with
          | none => simp at hxs
          | some v => rfl

/-- C7: with multiple surveys stored, the lookup returns the dominant
category of the most recently inserted `survey_results` row of that user
(the last row of the user's rows in insertion order), not an earlier one;
with no stored survey it returns `None` and tailoring falls back to the
sentinel `"General"`. -/
theorem latest_dominant_spec (rows : List SurveyRow) (uid : Nat)
    (hinc : List.Pairwise (fun a b => a.id < b.id) rows) :
    (∀ pre last, rows.filter (fun r => r.user_id == uid) = pre ++ [last] →
       get_latest_dominant_mi rows uid = some last.dominant_mi ∧
       dominantOrGeneral rows uid =
         (if last.dominant_mi = "" then "General" else last.dominant_mi)) ∧
    (rows.filter (fun r => r.user_id == uid) = [] →
       get_latest_dominant_mi rows uid = none ∧
       dominantOrGeneral rows uid = "General") := by
  constructor
  · intro pre last hfl
    have hlatest : latestSurveyRow rows uid = some last := by
      have hpw : List.Pairwise (fun a b => a.id < b.id)
          (rows.filter (fun r => r.user_id == uid)) :=
        List.Pairwise.sublist (List.filter_sublist rows) hinc
      rw [latestSurveyRow, hfl]
      rw [hfl] at hpw
      cases pre with
      | nil => rfl
      | cons p0 pre' =>
          show some (List.foldl maxIdStep p0 (pre' ++ [last])) = some last
          have hfold := foldl_maxIdStep_increasing (pre' ++ [last]) p0 hpw
          rw [hfold, List.getLast?_concat]
          rfl
    have hdom : get_latest_dominant_mi rows uid = some last.dominant_mi := by
      rw [get_latest_dominant_mi, hlatest]
      rfl
    refine ⟨hdom, ?_⟩
    rw [dominantOrGeneral, hdom]
  · intro hfl
    have hlatest : latestSurveyRow rows uid = none := by
      rw [latestSurveyRow, hfl]
    have hdom : get_latest_dominant_mi rows uid = none := by
      rw [get_latest_dominant_mi, hlatest]
      rfl
    exact ⟨hdom, by rw [dominantOrGeneral, hdom]⟩

/-- Witness for `latest_dominant_spec`: user 7 has two surveys (ids 1 and 2)
and the lookup must pick the one with id 2; user 9 has none. -/
theorem latest_dominant_spec_witness :
    List.Pairwise (fun a b : SurveyRow => a.id < b.id)
      [⟨1, 7, "Musical"⟩, ⟨2, 7, "Linguistic"⟩, ⟨3, 8, "Visual-Spatial"⟩] ∧
    ((∀ pre last,
        ([⟨1, 7, "Musical"⟩, ⟨2, 7, "Linguistic"⟩,
          ⟨3, 8, "Visual-Spatial"⟩] : List SurveyRow).filter
            (fun r => r.user_id == 7) = pre ++ [last] →
        get_latest_dominant_mi
          [⟨1, 7, "Musical"⟩, ⟨2, 7, "Linguistic"⟩, ⟨3, 8, "Visual-Spatial"⟩] 7 =
            some last.dominant_mi ∧
        dominantOrGeneral
          [⟨1, 7, "Musical"⟩, ⟨2, 7, "Linguistic"⟩, ⟨3, 8, "Visual-Spatial"⟩] 7 =
            (if last.dominant_mi = "" then "General" else last.dominant_mi)) ∧
     (([⟨1, 7, "Musical"⟩, ⟨2, 7, "Linguistic"⟩,
        ⟨3, 8, "Visual-Spatial"⟩] : List SurveyRow).filter
          (fun r => r.user_id == 7) = [] →
      get_latest_dominant_mi
        [⟨1, 7, "Musical"⟩, ⟨2, 7, "Linguistic"⟩, ⟨3, 8, "Visual-Spatial"⟩] 7 = none ∧
      dominantOrGeneral
        [⟨1, 7, "Musical"⟩, ⟨2, 7, "Linguistic"⟩, ⟨3, 8, "Visual-Spatial"⟩] 7 =
          "General")) :=
  ⟨by decide,
   latest_dominant_spec
     [⟨1, 7, "Musical"⟩, ⟨2, 7, "Linguistic"⟩, ⟨3, 8, "Visual-Spatial"⟩] 7 (by decide)⟩

/-! ## Tailoring service (`generate_tailored_lesson`)

`openai.api_key` is `apiKey : Option String` (`hasApiKey` is its Python
truthiness: `None` and the empty string are falsy).  The external
`openai.ChatCompletion.create` call and the decoding of its response are
the oracle `apiResult : Except String String`: `.ok content` carries
`resp["choices"][0]["message"]["content"]`, `.error e` stands for any
exception raised by the call or the decoding. -/

/-- Python truthiness of `openai.api_key`. -/
def hasApiKey : Option String → Bool
  | none => false
  | some k => !(k == "")

/-- `generate_tailored_lesson(text, mi_type)`.  Always returns a string:
the no-key branch builds the local fallback, the `.ok` branch returns the
stripped model output, the `.error` branch builds the AI-fallback string
(after `st.error`, which touches no state modelled here). -/
def generate_tailored_lesson (apiKey : Option String)
    (apiResult : Except String String) (text mi_type : String) : String :=
  if !(hasApiKey apiKey) then
    "[Tailored for " ++ mi_type ++ "] (No OpenAI key configured)\n\n" ++
      "Key points:\n- " ++
      (if text = "" then "Main idea placeholder" else flattenNewlines (pytake text 200)) ++
      "\n\nPractice:\n1) ...\n2) ..."
  else
    match apiResult with
    | .ok content => pystrip content
    | .error _ =>
        "[Tailored for " ++ mi_type ++ "] (AI fallback)\n\n" ++
          (if text = "" then "Content not available." else pytake text 400)

/-- C5 as frozen is false on the code: on the empty source text the excerpt
portion of the no-key fallback is the placeholder `"Main idea placeholder"`,
not the (empty) first-200-characters excerpt. -/
theorem tailor_nokey_claim_counterexample :
    generate_tailored_lesson none (.ok "") "" "Musical" ≠
      "[Tailored for Musical] (No OpenAI key configured)\n\n" ++
        "Key points:\n- " ++ flattenNewlines (pytake "" 200) ++
        "\n\nPractice:\n1) ...\n2) ..." := by
  decide

/-- C5 (amended): with no credential configured and a non-empty source
text, tailoring is deterministic — independent of the external oracle —
and its output is exactly the fixed header naming the intelligence type,
the first 200 characters of the source with every newline replaced by a
space as the excerpt, and the two placeholder practice-question stubs. -/
theorem tailor_nokey_deterministic (apiKey : Option String)
    (hk : hasApiKey apiKey = false) (apiResult : Except String String)
    (text mi_type : String) (htext : text ≠ "") :
    generate_tailored_lesson apiKey apiResult text mi_type =
      "[Tailored for " ++ mi_type ++ "] (No OpenAI key configured)\n\n" ++
        "Key points:\n- " ++ flattenNewlines (pytake text 200) ++
        "\n\nPractice:\n1) ...\n2) ..." ∧
    (∀ apiResult' : Except String String,
      generate_tailored_lesson apiKey apiResult' text mi_type =
        generate_tailored_lesson apiKey apiResult text mi_type) := by
  have hbase : ∀ r : Except String String,
      generate_tailored_lesson apiKey r text mi_type =
        "[Tailored for " ++ mi_type ++ "] (No OpenAI key configured)\n\n" ++
          "Key points:\n- " ++ flattenNewlines (pytake text 200) ++
          "\n\nPractice:\n1) ...\n2) ..." := by
    intro r
    rw [generate_tailored_lesson.eq_def, hk]
    simp [htext]
  exact ⟨hbase apiResult, fun r' => (hbase r').trans (hbase apiResult).symm⟩

/-- Witness for `tailor_nokey_deterministic`: a two-line source text. -/
theorem tailor_nokey_deterministic_witness :
    hasApiKey none = false ∧ ("line one\nline two" : String) ≠ "" ∧
    (generate_tailored_lesson none (.error "unused") "line one\nline two" "Musical" =
      "[Tailored for " ++ "Musical" ++ "] (No OpenAI key configured)\n\n" ++
        "Key points:\n- " ++ flattenNewlines (pytake "line one\nline two" 200) ++
        "\n\nPractice:\n1) ...\n2) ..." ∧
     (∀ apiResult' : Except String String,
       generate_tailored_lesson none apiResult' "line one\nline two" "Musical" =
         generate_tailored_lesson none (.error "unused") "line one\nline two" "Musical")) :=
  ⟨by decide, by decide,
   tailor_nokey_deterministic none (by decide) (.error "unused")
     "line one\nline two" "Musical" (by decide)⟩

/-- C6 as frozen is false on the code: when the external call fails on the
empty source text, the fallback carries the placeholder
`"Content not available."`, not the (empty) first-400-characters excerpt. -/
theorem tailor_error_claim_counterexample :
    generate_tailored_lesson (some "sk-test") (.error "boom") "" "Musical" ≠
      "[Tailored for Musical] (AI fallback)\n\n" ++ pytake "" 400 := by
  decide

/-- C6 (amended): tailoring never propagates a failure — it is a total
function into strings; when the external call raises and the source text is
non-empty, it returns the header naming the intelligence type followed by
the first 400 characters of the source (the placeholder
`"Content not available."` standing in for the excerpt when the text is
empty); when the call succeeds it returns the stripped model output. -/
theorem tailor_never_fails (apiKey : Option String) (hk : hasApiKey apiKey = true)
    (text mi_type : String) :
    (∀ e, text ≠ "" →
      generate_tailored_lesson apiKey (.error e) text mi_type =
        "[Tailored for " ++ mi_type ++ "] (AI fallback)\n\n" ++ pytake text 400) ∧
    (∀ e, text = "" →
      generate_tailored_lesson apiKey (.error e) text mi_type =
        "[Tailored for " ++ mi_type ++ "] (AI fallback)\n\n" ++ "Content not available.") ∧
    (∀ content, generate_tailored_lesson apiKey (.ok content) text mi_type =
      pystrip content) := by
  refine ⟨fun e htext => ?_, fun e htext => ?_, fun content => ?_⟩
  · rw [generate_tailored_lesson.eq_def, hk]
    simp [htext]
  · rw [generate_tailored_lesson.eq_def, hk]
    simp [htext]
  · rw [generate_tailored_lesson.eq_def, hk]
    simp

/-- Witness for `tailor_never_fails`: a configured key, a failing call, a
short source text. -/
theorem tailor_never_fails_witness :
    hasApiKey (some "sk-test") = true ∧
    ((∀ e, ("Fractions are parts of a whole." : String) ≠ "" →
       generate_tailored_lesson (some "sk-test") (.error e)
           "Fractions are parts of a whole." "Linguistic" =
         "[Tailored for " ++ "Linguistic" ++ "] (AI fallback)\n\n" ++
           pytake "Fractions are parts of a whole." 400) ∧
     (∀ e, ("Fractions are parts of a whole." : String) = "" →
       generate_tailored_lesson (some "sk-test") (.error e)
           "Fractions are parts of a whole." "Linguistic" =
         "[Tailored for " ++ "Linguistic" ++ "] (AI fallback)\n\n" ++
           "Content not available.") ∧
     (∀ content, generate_tailored_lesson (some "sk-test") (.ok content)
           "Fractions are parts of a whole." "Linguistic" = pystrip content)) :=
  ⟨by decide,
   tailor_never_fails (some "sk-test") (by decide)
     "Fractions are parts of a whole." "Linguistic"⟩

/-- C10: on the empty source text the no-key fallback's excerpt portion is
the literal placeholder `"Main idea placeholder"` rather than the (empty)
first-200-characters excerpt of the input. -/
theorem tailor_empty_text_placeholder (apiKey : Option String)
    (hk : hasApiKey apiKey = false) (apiResult : Except String String)
    (mi_type : String) :
    generate_tailored_lesson apiKey apiResult "" mi_type =
      "[Tailored for " ++ mi_type ++ "] (No OpenAI key configured)\n\n" ++
        "Key points:\n- " ++ "Main idea placeholder" ++
        "\n\nPractice:\n1) ...\n2) ..." := by
  rw [generate_tailored_lesson.eq_def, hk]
  simp

/-- Witness for `tailor_empty_text_placeholder`. -/
theorem tailor_empty_text_placeholder_witness :
    hasApiKey none = false ∧
    generate_tailored_lesson none (.ok "ignored") "" "Interpersonal" =
      "[Tailored for " ++ "Interpersonal" ++ "] (No OpenAI key configured)\n\n" ++
        "Key points:\n- " ++ "Main idea placeholder" ++
        "\n\nPractice:\n1) ...\n2) ..." :=
  ⟨by decide, tailor_empty_text_placeholder none (by decide) (.ok "ignored") "Interpersonal"⟩

/-! ## Assignment orchestrator (`teacher_pages`, "Assign Lesson" branch)

The extracted document text arrives as one string (`""` when extraction
raised, since the handler sets `text = ""` on exception).  The per-student
external call is `generate_tailored_lesson` with the same credential and a
per-student oracle `apiResults` keyed by student id. -/

/-- Outcome reported by the assignment branch. -/
inductive AssignOutcome where
  | extractionError
  | noStudents
  | assigned
deriving Repr, DecidableEq

/-- The `class_lessons` row saved for one enrolled student `s = (id, name)`:
`save_class_lesson(class_id, sid, topic or "Uploaded Lesson",
subject or "General", dominant, tailored)` with
`dominant = get_latest_dominant_mi(sid) or "General"`. -/
def assignRowFor (apiKey : Option String) (apiResults : Nat → Except String String)
    (surveys : List SurveyRow) (class_id : Nat) (topic subject text : String)
    (s : Nat × String) : ClassLessonRow :=
  { class_id := class_id
    student_id := s.1
    topic := if topic = "" then "Uploaded Lesson" else topic
    subject := if subject = "" then "General" else subject
    mi_type := dominantOrGeneral surveys s.1
    content := generate_tailored_lesson apiKey (apiResults s.1) text
      (dominantOrGeneral surveys s.1) }

/-- The "Assign to class" handler: abort when the stripped extracted text is
empty, report informationally when the class has no students, otherwise
persist one tailored `class_lessons` row per enrolled student. -/
def assign_lesson (apiKey : Option String) (apiResults : Nat → Except String String)
    (surveys : List SurveyRow) (lessons : List ClassLessonRow) (class_id : Nat)
    (topic subject text : String) (students : List (Nat × String)) :
    List ClassLessonRow × AssignOutcome :=
  if pystrip text = "" then (lessons, .extractionError)
  else if students.isEmpty then (lessons, .noStudents)
  else
    (lessons ++ students.map
      (assignRowFor apiKey apiResults surveys class_id topic subject text), .assigned)

/-- C8: the bulk assignment aborts before any per-student processing when
the extracted text is empty (or extraction failed), persists nothing and
reports informationally when the class has no students, and otherwise
persists exactly one `class_lessons` row per enrolled student, carrying that
student's latest dominant intelligence (default `"General"`) and the
tailored content. -/
theorem assign_lesson_spec (apiKey : Option String)
    (apiResults : Nat → Except String String) (surveys : List SurveyRow)
    (lessons : List ClassLessonRow) (class_id : Nat) (topic subject text : String)
    (students : List (Nat × String)) (hnd : (students.map Prod.fst).Nodup) :
    (pystrip text = "" →
      assign_lesson apiKey apiResults surveys lessons class_id topic subject text students =
        (lessons, .extractionError)) ∧
    (pystrip text ≠ "" → students = [] →
      assign_lesson apiKey apiResults surveys lessons class_id topic subject text students =
        (lessons, .noStudents)) ∧
    (pystrip text ≠ "" → students ≠ [] →
      assign_lesson apiKey apiResults surveys lessons class_id topic subject text students =
        (lessons ++ students.map
          (assignRowFor apiKey apiResults surveys class_id topic subject text),
         .assigned) ∧
      (students.map (assignRowFor apiKey apiResults surveys class_id topic subject text)).length =
        students.length ∧
      ∀ s ∈ students,
        (students.map (assignRowFor apiKey apiResults surveys class_id topic subject text)).countP
            (fun r => r.student_id == s.1) = 1 ∧
        (⟨class_id, s.1, (if topic = "" then "Uploaded Lesson" else topic),
          (if subject = "" then "General" else subject), dominantOrGeneral surveys s.1,
          generate_tailored_lesson apiKey (apiResults s.1) text
            (dominantOrGeneral surveys s.1)⟩ : ClassLessonRow) ∈
          students.map (assignRowFor apiKey apiResults surveys class_id topic subject text)) := by
  refine ⟨fun hempty => ?_, fun hne hstud => ?_, fun hne hstud => ?_⟩
  · rw [assign_lesson, if_pos hempty]
  · rw [assign_lesson, if_neg hne, if_pos (by rw [hstud]; rfl)]
  · have hnotempty : students.isEmpty = false := by
      cases students with
      | nil => exact absurd rfl hstud
      | cons s rest => rfl
    refine ⟨by rw [assign_lesson, if_neg hne, hnotempty]; rfl, List.length_map _ _, ?_⟩
    intro s hs
    constructor
    · rw [List.countP_map]
      have hcnt : students.countP
          (fun t => ((fun r : ClassLessonRow => r.student_id == s.1)
            (assignRowFor apiKey apiResults surveys class_id topic subject text t))) =
          students.countP (fun t => t.1 == s.1) := by
        apply List.countP_congr
        intro t _
        rfl
      rw [Function.comp_def, hcnt]
      have hmem : s.1 ∈ students.map Prod.fst := List.mem_map_of_mem _ hs
      have hone : (students.map Prod.fst).count s.1 = 1 :=
        List.count_eq_one_of_mem hnd hmem
      rw [List.count, List.countP_map] at hone
      rw [← hone]
      apply List.countP_congr
      intro t _
      rfl
    · exact List.mem_map_of_mem _ hs

/-- Witness for `assign_lesson_spec`: a class of two students, one with a
survey on record and one without. -/
theorem assign_lesson_spec_witness :
    (([(7, "Juan D. Cruz"), (8, "Maria L. Reyes")] : List (Nat × String)).map
        Prod.fst).Nodup ∧
    ((pystrip "Fractions are parts of a whole." = "" →
       assign_lesson none (fun _ => .error "unused") [⟨1, 7, "Musical"⟩] [] 1
           "Fractions" "Mathematics" "Fractions are parts of a whole."
           [(7, "Juan D. Cruz"), (8, "Maria L. Reyes")] =
         ([], .extractionError)) ∧
     (pystrip "Fractions are parts of a whole." ≠ "" →
       ([(7, "Juan D. Cruz"), (8, "Maria L. Reyes")] : List (Nat × String)) = [] →
       assign_lesson none (fun _ => .error "unused") [⟨1, 7, "Musical"⟩] [] 1
           "Fractions" "Mathematics" "Fractions are parts of a whole."
           [(7, "Juan D. Cruz"), (8, "Maria L. Reyes")] =
         ([], .noStudents)) ∧
     (pystrip "Fractions are parts of a whole." ≠ "" →
       ([(7, "Juan D. Cruz"), (8, "Maria L. Reyes")] : List (Nat × String)) ≠ [] →
       assign_lesson none (fun _ => .error "unused") [⟨1, 7, "Musical"⟩] [] 1
           "Fractions" "Mathematics" "Fractions are parts of a whole."
           [(7, "Juan D. Cruz"), (8, "Maria L. Reyes")] =
         ([] ++ ([(7, "Juan D. Cruz"), (8, "Maria L. Reyes")] : List (Nat × String)).map
           (assignRowFor none (fun _ => .error "unused") [⟨1, 7, "Musical"⟩] 1
             "Fractions" "Mathematics" "Fractions are parts of a whole."),
          .assigned) ∧
       (([(7, "Juan D. Cruz"), (8, "Maria L. Reyes")] : List (Nat × String)).map
         (assignRowFor none (fun _ => .error "unused") [⟨1, 7, "Musical"⟩] 1
           "Fractions" "Mathematics" "Fractions are parts of a whole.")).length =
         ([(7, "Juan D. Cruz"), (8, "Maria L. Reyes")] : List (Nat × String)).length ∧
       ∀ s ∈ ([(7, "Juan D. Cruz"), (8, "Maria L. Reyes")] : List (Nat × String)),
         (([(7, "Juan D. Cruz"), (8, "Maria L. Reyes")] : List (Nat × String)).map
           (assignRowFor none (fun _ => .error "unused") [⟨1, 7, "Musical"⟩] 1
             "Fractions" "Mathematics" "Fractions are parts of a whole.")).countP
             (fun r => r.student_id == s.1) = 1 ∧
         (⟨1, s.1, (if ("Fractions" : String) = "" then "Uploaded Lesson" else "Fractions"),
           (if ("Mathematics" : String) = "" then "General" else "Mathematics"),
           dominantOrGeneral [⟨1, 7, "Musical"⟩] s.1,
           generate_tailored_lesson none ((fun _ : Nat => Except.error "unused") s.1)
             "Fractions are parts of a whole."
             (dominantOrGeneral [⟨1, 7, "Musical"⟩] s.1)⟩ : ClassLessonRow) ∈
           ([(7, "Juan D. Cruz"), (8, "Maria L. Reyes")] : List (Nat × String)).map
             (assignRowFor none (fun _ => .error "unused") [⟨1, 7, "Musical"⟩] 1
               "Fractions" "Mathematics" "Fractions are parts of a whole."))) :=
  ⟨by decide,
   assign_lesson_spec none (fun _ => .error "unused") [⟨1, 7, "Musical"⟩] [] 1
     "Fractions" "Mathematics" "Fractions are parts of a whole."
     [(7, "Juan D. Cruz"), (8, "Maria L. Reyes")] (by decide)⟩

end Lumora
